import Mathlib

/-!
A shallow embedding of the data-access layer of the
AcademicYearStudentManager Flask application (src/app.py, src/models.py).

The SQLite database is modelled as five lists of rows (relation `DB`); each
data-access function of `app.py` is translated into a pure Lean function on
`DB`.  SQL `SELECT ... WHERE` becomes `List.filter`/`List.find?`, `ORDER BY`
becomes an insertion sort, `INSERT` appends a row with a fresh
`AUTOINCREMENT` id, and `UPDATE ... WHERE id=?` maps over the list.
Fetching rows without an `ORDER BY` clause yields rows in rowid
(= insertion) order, which is list order here.
-/

namespace StudentManager

/-- A row of the `users` table (models.py). -/
structure User where
  id : Nat
  username : String
  password : String
deriving DecidableEq

/-- A row of the `courses` table (models.py). -/
structure Course where
  id : Nat
  name : String
deriving DecidableEq

/-- A row of the `students` table (models.py): id, name, course_id, user_id. -/
structure Student where
  id : Nat
  name : String
  course_id : Nat
  user_id : Nat
deriving DecidableEq

/-- A row of the `attendance` table (models.py).  `present` is the stored
SQLite integer (the app writes 1/0 and compares with `present=1` /
`present=0`). -/
structure AttendanceRecord where
  id : Nat
  student_id : Nat
  date : String
  present : Int
deriving DecidableEq

/-- A row of the `marks` table (models.py). -/
structure MarkEntry where
  id : Nat
  student_id : Nat
  subject : String
  marks : Int
deriving DecidableEq

/-- The whole database state: the five relations of models.py. -/
structure DB where
  users : List User
  courses : List Course
  students : List Student
  attendance : List AttendanceRecord
  marks : List MarkEntry
deriving DecidableEq

/-- HTTP-level outcome of a JSON API route in app.py. -/
inductive ApiResult where
  | ok
  | badRequest
  | notFound
  | serverError
deriving DecidableEq

/-! ### Sorting (model of SQL ORDER BY) -/

/-- Insert `a` into `l` before the first element `b` with `le a b`. -/
def insertBy (le : α → α → Bool) (a : α) : List α → List α
  | [] => [a]
  | b :: l => if le a b then a :: b :: l else b :: insertBy le a l

/-- Insertion sort by the boolean comparator `le`; models SQL ORDER BY. -/
def sortBy (le : α → α → Bool) : List α → List α
  | [] => []
  | a :: l => insertBy le a (sortBy le l)

theorem insertBy_perm (le : α → α → Bool) (a : α) (l : List α) :
    List.Perm (insertBy le a l) (a :: l) := by
  induction l with
  | nil => exact List.Perm.refl _
  | cons b l ih =>
    simp only [insertBy]
    by_cases h : le a b = true
    · simp [h]
    · simp only [h, if_neg]
      exact (ih.cons b).trans (List.Perm.swap a b l)

theorem sortBy_perm (le : α → α → Bool) (l : List α) : List.Perm (sortBy le l) l := by
  induction l with
  | nil => exact List.Perm.refl _
  | cons a l ih =>
    exact (insertBy_perm le a (sortBy le l)).trans (ih.cons a)

theorem mem_sortBy {le : α → α → Bool} {l : List α} {x : α} :
    x ∈ sortBy le l ↔ x ∈ l :=
  (sortBy_perm le l).mem_iff

theorem length_sortBy (le : α → α → Bool) (l : List α) :
    (sortBy le l).length = l.length :=
  (sortBy_perm le l).length_eq

theorem countP_sortBy (le : α → α → Bool) (p : α → Bool) (l : List α) :
    (sortBy le l).countP p = l.countP p :=
  (sortBy_perm le l).countP_eq p

theorem pairwise_insertBy {le : α → α → Bool} {R : α → α → Prop}
    (hle : ∀ a b, le a b = true → R a b)
    (hgt : ∀ a b, le a b = false → R b a)
    (htrans : ∀ a b c, R a b → R b c → R a c)
    (a : α) (l : List α) (hl : l.Pairwise R) :
    (insertBy le a l).Pairwise R := by
  induction l with
  | nil => simp [insertBy]
  | cons b l ih =>
    simp only [insertBy]
    rcases List.pairwise_cons.mp hl with ⟨hb, hl'⟩
    by_cases h : le a b = true
    · simp only [h, if_pos]
      refine List.pairwise_cons.mpr ⟨?_, hl⟩
      intro x hx
      rcases List.mem_cons.mp hx with rfl | hx
      · exact hle a x h
      · exact htrans a b x (hle a b h) (hb x hx)
    · simp only [h, if_neg, Bool.false_eq_true, not_false_iff]
      refine List.pairwise_cons.mpr ⟨?_, ih hl'⟩
      intro x hx
      rcases List.mem_cons.mp (((insertBy_perm le a l).mem_iff).mp hx) with rfl | hx
      · exact hgt x b (by simpa using h)
      · exact hb x hx

theorem pairwise_sortBy {le : α → α → Bool} {R : α → α → Prop}
    (hle : ∀ a b, le a b = true → R a b)
    (hgt : ∀ a b, le a b = false → R b a)
    (htrans : ∀ a b c, R a b → R b c → R a c)
    (l : List α) : (sortBy le l).Pairwise R := by
  induction l with
  | nil => simp [sortBy]
  | cons a l ih => exact pairwise_insertBy hle hgt htrans a (sortBy le l) ih

/-! ### Small helpers shared by the operations -/

/-- Python `str.strip()`: remove leading and trailing whitespace. -/
def pyStrip (s : String) : String :=
  ⟨((s.data.dropWhile Char.isWhitespace).reverse.dropWhile Char.isWhitespace).reverse⟩

/-- Whether `needle` occurs at the start of `hay`. -/
def startsWithChars (needle hay : List Char) : Bool :=
  match needle, hay with
  | [], _ => true
  | _ :: _, [] => false
  | a :: n, b :: h => a == b && startsWithChars n h

/-- Whether `needle` occurs as a contiguous run inside `hay`. -/
def containsChars (needle : List Char) : List Char → Bool
  | [] => needle.isEmpty
  | b :: h => startsWithChars needle (b :: h) || containsChars needle h

/-- SQL `name LIKE '%q%'` with SQLite's default case-insensitive ASCII
matching: substring test on the lower-cased strings. -/
def likeMatch (name q : String) : Bool :=
  containsChars q.toLower.data name.toLower.data

/-- Fresh `AUTOINCREMENT` id for an insert into `students`. -/
def nextStudentId (db : DB) : Nat :=
  (db.students.map (·.id)).foldr max 0 + 1

/-- Fresh `AUTOINCREMENT` id for an insert into `attendance`. -/
def nextAttendanceId (db : DB) : Nat :=
  (db.attendance.map (·.id)).foldr max 0 + 1

/-- Fresh `AUTOINCREMENT` id for an insert into `marks`. -/
def nextMarkId (db : DB) : Nat :=
  (db.marks.map (·.id)).foldr max 0 + 1

/-! ### Data-access layer (app.py) -/

/-- Row shape returned by `get_students`: `students.*` plus the LEFT-JOINed
course name (`none` when the student's `course_id` matches no course). -/
structure StudentRow where
  id : Nat
  name : String
  course_id : Nat
  user_id : Nat
  course_name : Option String
deriving DecidableEq

/-- app.py `get_students(user_id, search_query, course_id)` (lines 44-66):
students of the given account, LEFT JOIN courses, optional name LIKE filter
and course filter, ORDER BY name. -/
def get_students (db : DB) (user_id : Nat)
    (search_query : Option String) (course_id : Option Nat) : List StudentRow :=
  let rows := db.students.filterMap (fun s =>
    if s.user_id == user_id
        && (match search_query with
            | none => true
            | some q => likeMatch s.name q)
        && (match course_id with
            | none => true
            | some c => s.course_id == c)
    then some { id := s.id, name := s.name, course_id := s.course_id,
                user_id := s.user_id,
                course_name := (db.courses.find? (fun c => c.id == s.course_id)).map (·.name) }
    else none)
  sortBy (fun a b => decide (a.name ≤ b.name)) rows

/-- app.py `get_student(student_id, user_id)` (lines 68-77):
`SELECT * FROM students WHERE id=? AND user_id=?`, first row or `None`. -/
def get_student (db : DB) (student_id : Nat) (user_id : Nat) : Option Student :=
  db.students.find? (fun s => s.id == student_id && s.user_id == user_id)

/-- app.py `get_attendance(student_id, start_date, end_date)` (lines 80-98):
attendance rows of the student, optional date-range filters (TEXT
comparison), ORDER BY date DESC. -/
def get_attendance (db : DB) (student_id : Nat)
    (start_date end_date : Option String) : List AttendanceRecord :=
  let rows := db.attendance.filter (fun r =>
    r.student_id == student_id
    && (match start_date with
        | none => true
        | some sd => decide (sd ≤ r.date))
    && (match end_date with
        | none => true
        | some ed => decide (r.date ≤ ed)))
  sortBy (fun a b => decide (b.date ≤ a.date)) rows

/-- app.py `mark_attendance(student_id, date, present)` (lines 100-125):
look up an existing row for `(student_id, date)` (first row in rowid
order); UPDATE its `present` by id if found, else INSERT a new row.
Returns the success flag together with the new state. -/
def mark_attendance (db : DB) (student_id : Nat) (date : String)
    (present : Int) : Bool × DB :=
  match db.attendance.find? (fun r => r.student_id == student_id && r.date == date) with
  | some existing =>
    (true, { db with attendance := db.attendance.map (fun r =>
        if r.id == existing.id then { r with present := present } else r) })
  | none =>
    (true, { db with attendance := db.attendance ++
        [{ id := nextAttendanceId db, student_id := student_id,
           date := date, present := present }] })

/-- app.py `get_marks(student_id, subject)` (lines 128-143): mark rows of
the student, optional subject filter, ORDER BY subject, id DESC. -/
def get_marks (db : DB) (student_id : Nat) (subject : Option String) : List MarkEntry :=
  let rows := db.marks.filter (fun m =>
    m.student_id == student_id
    && (match subject with
        | none => true
        | some sub => m.subject == sub))
  sortBy (fun a b =>
    decide (a.subject < b.subject) || (a.subject == b.subject && decide (b.id ≤ a.id))) rows

/-- app.py `add_marks(student_id, subject, marks)` (lines 145-158):
unconditional INSERT into `marks`. -/
def add_marks (db : DB) (student_id : Nat) (subject : String)
    (marks : Int) : Bool × DB :=
  (true, { db with marks := db.marks ++
      [{ id := nextMarkId db, student_id := student_id,
         subject := subject, marks := marks }] })

/-- app.py route `delete_student` (lines 405-428): if a student with this
id is owned by the requester, DELETE its attendance rows, its marks rows
and the student row; otherwise change nothing.  The Bool records whether a
deletion happened (success flash vs not-found flash). -/
def delete_student (db : DB) (id : Nat) (user_id : Nat) : Bool × DB :=
  match db.students.find? (fun s => s.id == id && s.user_id == user_id) with
  | some _ =>
    (true, { db with
      attendance := db.attendance.filter (fun r => !(r.student_id == id)),
      marks := db.marks.filter (fun m => !(m.student_id == id)),
      students := db.students.filter (fun s => !(s.id == id && s.user_id == user_id)) })
  | none => (false, db)

/-- app.py route `api_delete_student` (lines 688-703):
`DELETE FROM students WHERE id=? AND user_id=?` only; 404 when the
rowcount is zero.  No statement touches `attendance` or `marks`. -/
def api_delete_student (db : DB) (id : Nat) (user_id : Nat) : ApiResult × DB :=
  let remaining := db.students.filter (fun s => !(s.id == id && s.user_id == user_id))
  let db' := { db with students := remaining }
  if remaining.length == db.students.length then (ApiResult.notFound, db')
  else (ApiResult.ok, db')

/-- app.py route `api_create_student` (lines 630-656): strip the name;
400 when the name is empty or `course_id` is missing/falsy (Python
`not course_id`, so JSON `null` or `0`); otherwise INSERT the student.
The existence of the course is never checked. -/
def api_create_student (db : DB) (user_id : Nat) (name : String)
    (course_id : Option Nat) : ApiResult × DB :=
  let n := pyStrip name
  match course_id with
  | none => (ApiResult.badRequest, db)
  | some cid =>
    if n == "" || cid == 0 then (ApiResult.badRequest, db)
    else
      (ApiResult.ok, { db with students := db.students ++
        [{ id := nextStudentId db, name := n, course_id := cid, user_id := user_id }] })

/-- app.py route `mark_attendance_route` (lines 456-466): reads the JSON
payload and calls `mark_attendance` directly — no field validation, no
existence check and no ownership check; 200 on success, 500 on failure. -/
def mark_attendance_route (db : DB) (student_id : Nat) (date : String)
    (present : Int) : ApiResult × DB :=
  let (ok, db') := mark_attendance db student_id date present
  (if ok then ApiResult.ok else ApiResult.serverError, db')

/-- app.py route `add_marks_route` (lines 484-503): 400 when a field is
missing/falsy (`not student_id or not subject or marks is None`); 404 when
`get_student` finds no student with this id owned by the session account;
otherwise insert via `add_marks`. -/
def add_marks_route (db : DB) (user_id : Nat) (student_id : Option Nat)
    (subject : Option String) (marks : Option Int) : ApiResult × DB :=
  match student_id, subject, marks with
  | some sid, some sub, some m =>
    if sid == 0 || sub == "" then (ApiResult.badRequest, db)
    else
      match get_student db sid user_id with
      | none => (ApiResult.notFound, db)
      | some _ =>
        let (ok, db') := add_marks db sid sub m
        (if ok then ApiResult.ok else ApiResult.serverError, db')
  | _, _, _ => (ApiResult.badRequest, db)

/-! ### Attendance summary (route `student_profile`, lines 372-381) -/

/-- Summary block computed by `student_profile`. -/
structure AttendanceSummary where
  total : Nat
  presentCount : Nat
  absentCount : Nat
  percentage : ℚ
deriving DecidableEq

/-- Python `round(x, 1)` on an exact value: round-half-to-even at one
decimal place. -/
def roundHalfEven (q : ℚ) : ℤ :=
  if q - ⌊q⌋ < 1/2 then ⌊q⌋
  else if (1:ℚ)/2 < q - ⌊q⌋ then ⌊q⌋ + 1
  else if ⌊q⌋ % 2 = 0 then ⌊q⌋ else ⌊q⌋ + 1

/-- Round to one decimal place, Python `round(x, 1)`. -/
def pyRound1 (q : ℚ) : ℚ := (roundHalfEven (q * 10) : ℚ) / 10

/-- app.py `student_profile` lines 372-381: totals over
`get_attendance(id)`, counting rows with `present == 1` and
`present == 0`; percentage `round(present/total*100, 1)`, or 0 when there
are no rows. -/
def attendance_summary (db : DB) (student_id : Nat) : AttendanceSummary :=
  let attendance := get_attendance db student_id none none
  let total := attendance.length
  let presentCount := attendance.countP (fun a => a.present == 1)
  let absentCount := attendance.countP (fun a => a.present == 0)
  { total := total
    presentCount := presentCount
    absentCount := absentCount
    percentage :=
      if total > 0 then pyRound1 ((presentCount : ℚ) / (total : ℚ) * 100) else 0 }

/-! ### Top performers (route `analytics_page`, lines 529-541) -/

/-- One output row of the top-performers query: student name, course name,
average marks. -/
structure PerfRow where
  name : String
  course_name : String
  avg_marks : ℚ
deriving DecidableEq

/-- Per-student group of the SQL query: the student survives the
`WHERE students.user_id=?`, the inner `JOIN courses`, and the
`HAVING avg_marks IS NOT NULL` (LEFT JOIN marks: NULL average iff the
student has no marks); `avg_marks` is `AVG(marks.marks)`. -/
def perfRow (db : DB) (user_id : Nat) (s : Student) : Option PerfRow :=
  if s.user_id == user_id then
    match db.courses.find? (fun c => c.id == s.course_id) with
    | some c =>
      if (db.marks.filter (fun m => m.student_id == s.id)).isEmpty then none
      else some { name := s.name, course_name := c.name,
                  avg_marks :=
                    (((db.marks.filter (fun m => m.student_id == s.id)).map
                        (fun m => m.marks)).sum : ℚ)
                      / ((db.marks.filter (fun m => m.student_id == s.id)).length : ℚ) }
    | none => none
  else none

/-- app.py `analytics_page` lines 529-541: the top-performers query,
grouped per student, ORDER BY avg_marks DESC, LIMIT `limit`
(the route instantiates `limit = 10`). -/
def top_performers (db : DB) (user_id : Nat) (limit : Nat) : List PerfRow :=
  (sortBy (fun a b => decide (b.avg_marks ≤ a.avg_marks))
    (db.students.filterMap (perfRow db user_id))).take limit

/-! ### C4: information hiding in `get_student` -/

/-- C4: for every student id `i` and account `B` that does not own a
student with id `i` — including when no student with id `i` exists at
all — `get_student i B` returns `none`; a non-owned existing student is
therefore indistinguishable from a nonexistent one. -/
theorem get_student_information_hiding (db : DB) (i B : Nat)
    (h : ∀ s ∈ db.students, s.id = i → s.user_id ≠ B) :
    get_student db i B = none := by
  unfold get_student
  rw [List.find?_eq_none]
  intro s hs hc
  simp only [Bool.and_eq_true, beq_iff_eq] at hc
  exact h s hs hc.1 hc.2

/-- Concrete database with a single student owned by account 1. -/
def dbC4 : DB :=
  { users := [⟨1, "2023", "hash1"⟩, ⟨2, "2024", "hash2"⟩]
    courses := [⟨1, "Mathematics"⟩]
    students := [⟨1, "Alice", 1, 1⟩]
    attendance := []
    marks := [] }

theorem get_student_information_hiding_witness :
    (∀ s ∈ dbC4.students, s.id = 1 → s.user_id ≠ 2) ∧
    get_student dbC4 1 2 = none :=
  ⟨by decide, get_student_information_hiding dbC4 1 2 (by decide)⟩

/-! ### C8: the attendance-marking route has no ownership or existence check -/

/-- C8: `mark_attendance_route` performs no ownership or existence check
on the student id: for every database state — in particular states where
no student row with id `s` exists, or where it is owned by an account
other than the session's — and every date and presence value, the route
reports success and the attendance table afterwards holds a record for
`(s, d)` with the given presence value. -/
theorem mark_attendance_route_unchecked (db : DB) (s : Nat) (d : String) (p : Int) :
    (mark_attendance_route db s d p).1 = ApiResult.ok ∧
    ∃ r ∈ (mark_attendance_route db s d p).2.attendance,
      r.student_id = s ∧ r.date = d ∧ r.present = p := by
  unfold mark_attendance_route mark_attendance
  cases hfind : db.attendance.find? (fun r => r.student_id == s && r.date == d) with
  | some ex =>
    refine ⟨rfl, ?_⟩
    have hkey := List.find?_some hfind
    simp only [Bool.and_eq_true, beq_iff_eq] at hkey
    refine ⟨{ ex with present := p }, ?_, hkey.1, hkey.2, rfl⟩
    simp only []
    have hmem : ex ∈ db.attendance := List.mem_of_find?_eq_some hfind
    have : ({ ex with present := p } : AttendanceRecord) =
        (fun r => if r.id == ex.id then { r with present := p } else r) ex := by
      simp
    rw [this]
    exact List.mem_map_of_mem _ hmem
  | none =>
    refine ⟨rfl, ?_⟩
    exact ⟨_, List.mem_append_right _ (List.mem_singleton.mpr rfl), rfl, rfl, rfl⟩

/-! ### C2: the API delete route does not cascade -/

/-- Concrete database: student 1 of account 1 with one attendance record
and one mark entry. -/
def dbC2 : DB :=
  { users := [⟨1, "2023", "hash1"⟩]
    courses := [⟨1, "Mathematics"⟩]
    students := [⟨1, "Alice", 1, 1⟩]
    attendance := [⟨1, 1, "2025-01-10", 1⟩]
    marks := [⟨1, 1, "Math", 70⟩] }

/-- C2: evaluating the code at the failing input.  `api_delete_student`
(a delete operation of the public interface, called by the owner) reports
success and removes the student row, yet the student's attendance and
mark rows survive: `get_attendance` and `get_marks` are NOT empty
afterwards, an observable partial state.  (The HTML `delete_student`
route, by contrast, does cascade.) -/
theorem api_delete_student_orphans_records :
    (api_delete_student dbC2 1 1).1 = ApiResult.ok ∧
    (api_delete_student dbC2 1 1).2.students = [] ∧
    get_attendance (api_delete_student dbC2 1 1).2 1 none none ≠ [] ∧
    get_marks (api_delete_student dbC2 1 1).2 1 none ≠ [] := by decide

/-! ### C5: createStudent validation -/

/-- Concrete database with the three seed courses and no students. -/
def dbC5 : DB :=
  { users := [⟨1, "2023", "hash1"⟩]
    courses := [⟨1, "Mathematics"⟩, ⟨2, "Science"⟩, ⟨3, "Art"⟩]
    students := []
    attendance := []
    marks := [] }

/-- C5 counterexample: course id 999 identifies no existing course, yet
`api_create_student` succeeds and inserts a student with the dangling
course id 999 — refuting the claim that an invalid courseId fails with a
ValidationError and creates no student. -/
theorem api_create_student_accepts_invalid_course :
    (∀ c ∈ dbC5.courses, c.id ≠ 999) ∧
    (api_create_student dbC5 1 "Bob" (some 999)).1 = ApiResult.ok ∧
    (api_create_student dbC5 1 "Bob" (some 999)).2.students =
      [{ id := 1, name := "Bob", course_id := 999, user_id := 1 }] := by decide

/-- C5 (amended): `api_create_student` fails with a validation error (and
creates no student) exactly when the stripped name is empty or the
courseId is missing/falsy; whenever a non-zero courseId is supplied with
a nonempty name the student is created — even when the courseId
identifies no existing course. -/
theorem api_create_student_validation (db : DB) (user_id : Nat) (name : String)
    (course_id : Option Nat) :
    ((pyStrip name = "" ∨ course_id = none ∨ course_id = some 0) →
      (api_create_student db user_id name course_id).1 = ApiResult.badRequest ∧
      (api_create_student db user_id name course_id).2 = db) ∧
    (∀ cid, course_id = some cid → cid ≠ 0 → pyStrip name ≠ "" →
      (api_create_student db user_id name course_id).1 = ApiResult.ok ∧
      (api_create_student db user_id name course_id).2.students =
        db.students ++ [{ id := nextStudentId db, name := pyStrip name,
                          course_id := cid, user_id := user_id }] ∧
      (api_create_student db user_id name course_id).2.attendance = db.attendance ∧
      (api_create_student db user_id name course_id).2.marks = db.marks) := by
  constructor
  · intro h
    unfold api_create_student
    rcases h with hn | hnone | h0
    · cases course_id with
      | none => exact ⟨rfl, rfl⟩
      | some cid =>
        simp only [hn]
        simp
    · subst hnone; exact ⟨rfl, rfl⟩
    · subst h0; simp
  · rintro cid rfl h0 hn
    unfold api_create_student
    have hb : (pyStrip name == "" || cid == 0) = false := by
      simp only [Bool.or_eq_false_iff, beq_eq_false_iff_ne, ne_eq]
      exact ⟨hn, h0⟩
    simp only [hb, Bool.false_eq_true, if_neg, if_false]
    exact ⟨trivial, trivial, trivial, trivial⟩

theorem api_create_student_validation_witness :
    ((api_create_student dbC5 1 "   " (some 1)).1 = ApiResult.badRequest ∧
     (api_create_student dbC5 1 "   " (some 1)).2 = dbC5) ∧
    ((api_create_student dbC5 1 " Ann " (some 2)).1 = ApiResult.ok ∧
     (api_create_student dbC5 1 " Ann " (some 2)).2.students =
       dbC5.students ++ [{ id := nextStudentId dbC5, name := pyStrip " Ann ",
                           course_id := 2, user_id := 1 }] ∧
     (api_create_student dbC5 1 " Ann " (some 2)).2.attendance = dbC5.attendance ∧
     (api_create_student dbC5 1 " Ann " (some 2)).2.marks = dbC5.marks) :=
  ⟨(api_create_student_validation dbC5 1 "   " (some 1)).1 (Or.inl (by decide)),
   (api_create_student_validation dbC5 1 " Ann " (some 2)).2 2 rfl
     (by decide) (by decide)⟩

/-! ### C1: ownership scoping of the student directory -/

theorem get_students_user_id {db : DB} {uid : Nat} {q : Option String}
    {c : Option Nat} {r : StudentRow} (hr : r ∈ get_students db uid q c) :
    r.user_id = uid := by
  unfold get_students at hr
  rw [mem_sortBy] at hr
  rcases List.mem_filterMap.mp hr with ⟨s, _, hf⟩
  split at hf
  · rename_i hcond
    injection hf with hf
    subst hf
    simp only [Bool.and_eq_true, beq_iff_eq] at hcond
    exact hcond.1.1
  · cases hf

theorem mem_get_students_of_owned {db : DB} {S : Student} (hmem : S ∈ db.students)
    {uid : Nat} (hown : S.user_id = uid) :
    ∃ r ∈ get_students db uid none none,
      r.id = S.id ∧ r.name = S.name ∧ r.course_id = S.course_id ∧
        r.user_id = S.user_id := by
  refine ⟨{ id := S.id, name := S.name, course_id := S.course_id, user_id := S.user_id,
            course_name := (db.courses.find? (fun c => c.id == S.course_id)).map (·.name) },
          ?_, rfl, rfl, rfl, rfl⟩
  unfold get_students
  rw [mem_sortBy]
  refine List.mem_filterMap.mpr ⟨S, hmem, ?_⟩
  simp [hown]

/-- C1: a student `S` of account `A` appears in `get_students A` (no
filters), and for any other account `B`, no row of `get_students B` — with
or without the optional name and course filters — is `S`. -/
theorem get_students_ownership_scoping (db : DB) (A B : Nat) (S : Student)
    (hmem : S ∈ db.students) (hown : S.user_id = A) (hBA : B ≠ A) :
    (∃ r ∈ get_students db A none none,
        r.id = S.id ∧ r.name = S.name ∧ r.course_id = S.course_id ∧
          r.user_id = S.user_id) ∧
    (∀ q c, ∀ r ∈ get_students db B q c,
        ¬(r.id = S.id ∧ r.name = S.name ∧ r.course_id = S.course_id ∧
            r.user_id = S.user_id)) := by
  refine ⟨mem_get_students_of_owned hmem hown, ?_⟩
  intro q c r hr hcontra
  have hB : r.user_id = B := get_students_user_id hr
  have hAB : A = B := by rw [← hown, ← hcontra.2.2.2]; exact hB
  exact hBA hAB.symm

/-- Concrete database for the C1 witness. -/
def dbC1 : DB :=
  { users := [⟨1, "2023", "hash1"⟩, ⟨2, "2024", "hash2"⟩]
    courses := [⟨1, "Mathematics"⟩]
    students := [⟨1, "Alice", 1, 1⟩]
    attendance := []
    marks := [] }

theorem get_students_ownership_scoping_witness :
    (⟨1, "Alice", 1, 1⟩ : Student) ∈ dbC1.students ∧ (2 : Nat) ≠ 1 ∧
    ((∃ r ∈ get_students dbC1 1 none none,
        r.id = 1 ∧ r.name = "Alice" ∧ r.course_id = 1 ∧ r.user_id = 1) ∧
     (∀ q c, ∀ r ∈ get_students dbC1 2 q c,
        ¬(r.id = 1 ∧ r.name = "Alice" ∧ r.course_id = 1 ∧ r.user_id = 1))) :=
  ⟨by decide, by decide,
   get_students_ownership_scoping dbC1 1 2 ⟨1, "Alice", 1, 1⟩ (by decide) rfl (by decide)⟩

/-! ### C9: the add-mark route does enforce ownership -/

/-- C9: with well-formed payload fields, `add_marks_route` returns a
not-found error and inserts nothing whenever the requesting account owns
no student with the given id; consequently every mark row present after
the call was either already there or belongs to a student owned by the
requesting account. -/
theorem add_marks_route_enforces_ownership (db : DB) (user_id sid : Nat)
    (sub : String) (m : Int) (hsid : sid ≠ 0) (hsub : sub ≠ "") :
    ((∀ st ∈ db.students, ¬(st.id = sid ∧ st.user_id = user_id)) →
      (add_marks_route db user_id (some sid) (some sub) (some m)).1 = ApiResult.notFound ∧
      (add_marks_route db user_id (some sid) (some sub) (some m)).2 = db) ∧
    (∀ e ∈ (add_marks_route db user_id (some sid) (some sub) (some m)).2.marks,
      e ∈ db.marks ∨ ∃ st ∈ db.students, st.id = e.student_id ∧ st.user_id = user_id) := by
  have hb : (sid == 0 || sub == "") = false := by simp [hsid, hsub]
  cases hg : get_student db sid user_id with
  | none =>
    have hroute : add_marks_route db user_id (some sid) (some sub) (some m)
        = (ApiResult.notFound, db) := by
      simp only [add_marks_route, hb, Bool.false_eq_true, if_false, hg]
    rw [hroute]
    exact ⟨fun _ => ⟨rfl, rfl⟩, fun e he => Or.inl he⟩
  | some st =>
    have hmem : st ∈ db.students := List.mem_of_find?_eq_some hg
    have hpred := List.find?_some hg
    simp only [Bool.and_eq_true, beq_iff_eq] at hpred
    have hroute : add_marks_route db user_id (some sid) (some sub) (some m)
        = (ApiResult.ok,
            { db with marks := db.marks ++ [⟨nextMarkId db, sid, sub, m⟩] }) := by
      simp only [add_marks_route, hb, Bool.false_eq_true, if_false, hg, add_marks,
        eq_self_iff_true, if_true]
    rw [hroute]
    constructor
    · intro h
      exact absurd ⟨hpred.1, hpred.2⟩ (h st hmem)
    · intro e he
      simp only [List.mem_append, List.mem_singleton] at he
      rcases he with he | rfl
      · exact Or.inl he
      · exact Or.inr ⟨st, hmem, hpred.1, hpred.2⟩

/-- Concrete database for the C9 witness: student 1 belongs to account 1,
the request comes from account 2. -/
def dbC9 : DB :=
  { users := [⟨1, "2023", "hash1"⟩, ⟨2, "2024", "hash2"⟩]
    courses := [⟨1, "Mathematics"⟩]
    students := [⟨1, "Alice", 1, 1⟩]
    attendance := []
    marks := [] }

theorem add_marks_route_enforces_ownership_witness :
    (1 : Nat) ≠ 0 ∧ ("Math" : String) ≠ "" ∧
    ((add_marks_route dbC9 2 (some 1) (some "Math") (some 70)).1 = ApiResult.notFound ∧
     (add_marks_route dbC9 2 (some 1) (some "Math") (some 70)).2 = dbC9) :=
  ⟨by decide, by decide,
   (add_marks_route_enforces_ownership dbC9 2 1 "Math" 70 (by decide) (by decide)).1
     (by decide)⟩

/-! ### C3: attendance upsert keeps at most one record per (student, date) -/

/-- At most one attendance record per `(student_id, date)`: no two rows of
the attendance table agree on both key fields. -/
def AttUnique (db : DB) : Prop :=
  db.attendance.Pairwise (fun r r' => ¬(r.student_id = r'.student_id ∧ r.date = r'.date))

theorem mark_attendance_eq_update {db : DB} {s : Nat} {d : String} {ex : AttendanceRecord}
    (hfind : db.attendance.find? (fun r => r.student_id == s && r.date == d) = some ex)
    (p : Int) :
    mark_attendance db s d p =
      (true, { db with attendance := db.attendance.map (fun r =>
          if r.id == ex.id then { r with present := p } else r) }) := by
  unfold mark_attendance
  rw [hfind]

theorem mark_attendance_eq_insert {db : DB} {s : Nat} {d : String}
    (hfind : db.attendance.find? (fun r => r.student_id == s && r.date == d) = none)
    (p : Int) :
    mark_attendance db s d p =
      (true, { db with attendance := db.attendance ++
          [{ id := nextAttendanceId db, student_id := s, date := d, present := p }] }) := by
  unfold mark_attendance
  rw [hfind]

theorem updatePresent_student_id (ex : AttendanceRecord) (p : Int) (r : AttendanceRecord) :
    (if r.id == ex.id then { r with present := p } else r).student_id = r.student_id := by
  split <;> rfl

theorem updatePresent_date (ex : AttendanceRecord) (p : Int) (r : AttendanceRecord) :
    (if r.id == ex.id then { r with present := p } else r).date = r.date := by
  split <;> rfl

theorem attUnique_mark_attendance (db : DB) (s : Nat) (d : String) (p : Int)
    (h : AttUnique db) : AttUnique (mark_attendance db s d p).2 := by
  cases hfind : db.attendance.find? (fun r => r.student_id == s && r.date == d) with
  | some ex =>
    rw [mark_attendance_eq_update hfind p]
    refine List.Pairwise.map _ (fun a b hab => ?_) h
    simpa only [updatePresent_student_id, updatePresent_date] using hab
  | none =>
    rw [mark_attendance_eq_insert hfind p]
    show List.Pairwise _ (db.attendance ++ [_])
    rw [List.pairwise_append]
    refine ⟨h, List.pairwise_singleton _ _, ?_⟩
    intro a ha b hb
    rw [List.mem_singleton] at hb
    subst hb
    have hnone := List.find?_eq_none.mp hfind a ha
    simp only [Bool.and_eq_true, beq_iff_eq] at hnone
    intro hcontra
    exact hnone ⟨hcontra.1, hcontra.2⟩

theorem attUnique_foldl (calls : List (Nat × String × Int)) :
    ∀ db : DB, AttUnique db →
      AttUnique (calls.foldl
        (fun acc c => (mark_attendance acc c.1 c.2.1 c.2.2).2) db) := by
  induction calls with
  | nil => intro db h; exact h
  | cons c cs ih =>
    intro db h
    exact ih _ (attUnique_mark_attendance db c.1 c.2.1 c.2.2 h)

theorem filter_eq_single_of_pairwise {α : Type _} {p : α → Bool} :
    ∀ l : List α, l.Pairwise (fun x y => ¬(p x = true ∧ p y = true)) →
      ∀ a, a ∈ l → p a = true → l.filter p = [a] := by
  intro l
  induction l with
  | nil => intro _ a ha; cases ha
  | cons b t ih =>
    intro hl a ha hpa
    rcases List.pairwise_cons.mp hl with ⟨hb, ht⟩
    rcases List.mem_cons.mp ha with rfl | ha
    · rw [List.filter_cons_of_pos hpa]
      congr 1
      rw [List.filter_eq_nil_iff]
      intro x hx hpx
      exact hb x hx ⟨hpa, hpx⟩
    · have hpb : ¬p b = true := fun hpb => hb a ha ⟨hpb, hpa⟩
      rw [List.filter_cons_of_neg hpb]
      exact ih ht a ha hpa

theorem attUnique_pairwise_key (db : DB) (h : AttUnique db) (s : Nat) (d : String) :
    db.attendance.Pairwise (fun x y =>
      ¬((x.student_id == s && x.date == d) = true ∧
        (y.student_id == s && y.date == d) = true)) := by
  refine h.imp ?_
  intro a b hab hc
  rcases hc with ⟨ha, hb⟩
  simp only [Bool.and_eq_true, beq_iff_eq] at ha hb
  exact hab ⟨ha.1.trans hb.1.symm, ha.2.trans hb.2.symm⟩

theorem mark_attendance_filter_key (db : DB) (s : Nat) (d : String) (p : Int)
    (h : AttUnique db) :
    ∃ r : AttendanceRecord,
      (mark_attendance db s d p).2.attendance.filter
        (fun r => r.student_id == s && r.date == d) = [r] ∧
      r.student_id = s ∧ r.date = d ∧ r.present = p := by
  cases hfind : db.attendance.find? (fun r => r.student_id == s && r.date == d) with
  | some ex =>
    rw [mark_attendance_eq_update hfind p]
    have hmem : ex ∈ db.attendance := List.mem_of_find?_eq_some hfind
    have hpk := List.find?_some hfind
    have hpk' := hpk
    simp only [Bool.and_eq_true, beq_iff_eq] at hpk'
    refine ⟨{ ex with present := p }, ?_, hpk'.1, hpk'.2, rfl⟩
    show (db.attendance.map _).filter _ = _
    rw [List.filter_map]
    have hcong : ((fun r : AttendanceRecord => r.student_id == s && r.date == d) ∘
        (fun r => if r.id == ex.id then { r with present := p } else r))
        = fun r : AttendanceRecord => r.student_id == s && r.date == d := by
      funext r
      simp only [Function.comp_apply, updatePresent_student_id, updatePresent_date]
    rw [hcong,
      filter_eq_single_of_pairwise _ (attUnique_pairwise_key db h s d) ex hmem hpk]
    simp
  | none =>
    rw [mark_attendance_eq_insert hfind p]
    refine ⟨⟨nextAttendanceId db, s, d, p⟩, ?_, rfl, rfl, rfl⟩
    show (db.attendance ++ [_]).filter _ = _
    rw [List.filter_append]
    have h1 : db.attendance.filter (fun r => r.student_id == s && r.date == d) = [] := by
      rw [List.filter_eq_nil_iff]
      exact List.find?_eq_none.mp hfind
    rw [h1]
    simp

/-- C3: starting from any state with at most one attendance record per
`(student_id, date)` pair, (a) every sequence of `mark_attendance` calls
preserves that invariant, and (b) marking `(s, d)` present (1) and then
absent (0) leaves exactly one record for `(s, d)`, and its `present`
value is 0 (false). -/
theorem mark_attendance_upsert (db : DB) (s : Nat) (d : String) (hinv : AttUnique db) :
    (∀ calls : List (Nat × String × Int),
      AttUnique (calls.foldl
        (fun acc c => (mark_attendance acc c.1 c.2.1 c.2.2).2) db)) ∧
    (((mark_attendance (mark_attendance db s d 1).2 s d 0).2.attendance.filter
        (fun r => r.student_id == s && r.date == d)).length = 1 ∧
      ∀ r ∈ (mark_attendance (mark_attendance db s d 1).2 s d 0).2.attendance.filter
        (fun r => r.student_id == s && r.date == d), r.present = 0) := by
  refine ⟨fun calls => attUnique_foldl calls db hinv, ?_⟩
  have hinv1 : AttUnique (mark_attendance db s d 1).2 :=
    attUnique_mark_attendance db s d 1 hinv
  rcases mark_attendance_filter_key (mark_attendance db s d 1).2 s d 0 hinv1 with
    ⟨r, hfil, _, _, hp⟩
  rw [hfil]
  exact ⟨rfl, fun x hx => by rw [List.mem_singleton] at hx; rw [hx, hp]⟩

/-- Concrete database for the C3 witness: no attendance rows yet. -/
def dbC3 : DB :=
  { users := [⟨1, "2023", "hash1"⟩]
    courses := [⟨1, "Mathematics"⟩]
    students := [⟨1, "Alice", 1, 1⟩]
    attendance := []
    marks := [] }

theorem mark_attendance_upsert_witness :
    AttUnique dbC3 ∧
    (((mark_attendance (mark_attendance dbC3 1 "2025-01-10" 1).2 1 "2025-01-10" 0).2.attendance.filter
        (fun r => r.student_id == 1 && r.date == "2025-01-10")).length = 1 ∧
      ∀ r ∈ (mark_attendance (mark_attendance dbC3 1 "2025-01-10" 1).2 1 "2025-01-10" 0).2.attendance.filter
        (fun r => r.student_id == 1 && r.date == "2025-01-10"), r.present = 0) :=
  ⟨List.Pairwise.nil,
   (mark_attendance_upsert dbC3 1 "2025-01-10" List.Pairwise.nil).2⟩

/-! ### C10: frame property of the attendance upsert -/

/-- C10: when attendance ids are unique (the primary-key invariant), a
`mark_attendance s d p` call leaves the students, marks, courses and
users relations unchanged, and every attendance record keyed by any
other `(student_id, date)` pair unchanged: the sub-list of records whose
key differs from `(s, d)` is exactly what it was. -/
theorem mark_attendance_frame (db : DB) (s : Nat) (d : String) (p : Int)
    (hids : (db.attendance.map (fun r => r.id)).Nodup) :
    (mark_attendance db s d p).2.students = db.students ∧
    (mark_attendance db s d p).2.marks = db.marks ∧
    (mark_attendance db s d p).2.courses = db.courses ∧
    (mark_attendance db s d p).2.users = db.users ∧
    (mark_attendance db s d p).2.attendance.filter
        (fun r => !(r.student_id == s && r.date == d)) =
      db.attendance.filter (fun r => !(r.student_id == s && r.date == d)) := by
  cases hfind : db.attendance.find? (fun r => r.student_id == s && r.date == d) with
  | some ex =>
    rw [mark_attendance_eq_update hfind p]
    refine ⟨rfl, rfl, rfl, rfl, ?_⟩
    show (db.attendance.map _).filter _ = _
    rw [List.filter_map]
    have hcong : ((fun r : AttendanceRecord => !(r.student_id == s && r.date == d)) ∘
        (fun r => if r.id == ex.id then { r with present := p } else r))
        = fun r : AttendanceRecord => !(r.student_id == s && r.date == d) := by
      funext r
      simp only [Function.comp_apply, updatePresent_student_id, updatePresent_date]
    rw [hcong]
    have hexmem : ex ∈ db.attendance := List.mem_of_find?_eq_some hfind
    have hexkey := List.find?_some hfind
    simp only [Bool.and_eq_true, beq_iff_eq] at hexkey
    have hexkey' : (ex.student_id == s && ex.date == d) = true := by
      simp [hexkey.1, hexkey.2]
    have huntouched : ∀ r ∈ db.attendance.filter
        (fun r => !(r.student_id == s && r.date == d)),
        (if r.id == ex.id then { r with present := p } else r) = r := by
      intro r hr
      rcases List.mem_filter.mp hr with ⟨hrmem, hrkey⟩
      have hne : ¬(r.id == ex.id) = true := by
        intro hid
        have heq : r = ex :=
          List.inj_on_of_nodup_map hids hrmem hexmem (by simpa using hid)
        subst heq
        rw [hexkey'] at hrkey
        simp at hrkey
      rw [if_neg hne]
    calc (db.attendance.filter (fun r => !(r.student_id == s && r.date == d))).map
          (fun r => if r.id == ex.id then { r with present := p } else r)
        = (db.attendance.filter (fun r => !(r.student_id == s && r.date == d))).map id := by
          exact List.map_congr_left huntouched
      _ = db.attendance.filter (fun r => !(r.student_id == s && r.date == d)) :=
          List.map_id _
  | none =>
    rw [mark_attendance_eq_insert hfind p]
    refine ⟨rfl, rfl, rfl, rfl, ?_⟩
    show (db.attendance ++ [_]).filter _ = _
    rw [List.filter_append]
    have hnew : ([⟨nextAttendanceId db, s, d, p⟩] : List AttendanceRecord).filter
        (fun r => !(r.student_id == s && r.date == d)) = [] := by
      simp
    rw [hnew, List.append_nil]

/-- Concrete database for the C10 witness: two attendance rows with
distinct ids, only the first keyed `(1, "2025-01-10")`. -/
def dbC10 : DB :=
  { users := [⟨1, "2023", "hash1"⟩]
    courses := [⟨1, "Mathematics"⟩]
    students := [⟨1, "Alice", 1, 1⟩]
    attendance := [⟨1, 1, "2025-01-10", 1⟩, ⟨2, 1, "2025-01-11", 0⟩]
    marks := [] }

theorem mark_attendance_frame_witness :
    (dbC10.attendance.map (fun r => r.id)).Nodup ∧
    ((mark_attendance dbC10 1 "2025-01-10" 0).2.students = dbC10.students ∧
     (mark_attendance dbC10 1 "2025-01-10" 0).2.marks = dbC10.marks ∧
     (mark_attendance dbC10 1 "2025-01-10" 0).2.courses = dbC10.courses ∧
     (mark_attendance dbC10 1 "2025-01-10" 0).2.users = dbC10.users ∧
     (mark_attendance dbC10 1 "2025-01-10" 0).2.attendance.filter
         (fun r => !(r.student_id == 1 && r.date == "2025-01-10")) =
       dbC10.attendance.filter (fun r => !(r.student_id == 1 && r.date == "2025-01-10"))) :=
  ⟨by decide, mark_attendance_frame dbC10 1 "2025-01-10" 0 (by decide)⟩

/-! ### C7: attendance summary arithmetic -/

theorem get_attendance_no_range (db : DB) (sid : Nat) :
    get_attendance db sid none none =
      sortBy (fun a b => decide (b.date ≤ a.date))
        (db.attendance.filter (fun r => r.student_id == sid)) := by
  unfold get_attendance
  dsimp only
  congr 1
  apply List.filter_congr
  intro r _
  simp

theorem attendance_summary_eq (db : DB) (sid : Nat) :
    (attendance_summary db sid).total
        = (db.attendance.filter (fun r => r.student_id == sid)).length ∧
    (attendance_summary db sid).presentCount
        = (db.attendance.filter (fun r => r.student_id == sid)).countP
            (fun a => a.present == 1) ∧
    (attendance_summary db sid).absentCount
        = (db.attendance.filter (fun r => r.student_id == sid)).countP
            (fun a => a.present == 0) ∧
    (attendance_summary db sid).percentage
        = (if 0 < (db.attendance.filter (fun r => r.student_id == sid)).length then
            pyRound1 (((db.attendance.filter (fun r => r.student_id == sid)).countP
                (fun a => a.present == 1) : ℚ)
              / ((db.attendance.filter (fun r => r.student_id == sid)).length : ℚ) * 100)
          else 0) := by
  simp only [attendance_summary, get_attendance_no_range, length_sortBy, countP_sortBy,
    gt_iff_lt]
  exact ⟨trivial, trivial, trivial, trivial⟩

/-- Concrete database for the C7 instance: student 1 with three present
and two absent records. -/
def dbC7 : DB :=
  { users := [⟨1, "2023", "hash1"⟩]
    courses := [⟨1, "Mathematics"⟩]
    students := [⟨1, "Alice", 1, 1⟩]
    attendance := [⟨1, 1, "2025-01-06", 1⟩, ⟨2, 1, "2025-01-07", 1⟩,
                   ⟨3, 1, "2025-01-08", 1⟩, ⟨4, 1, "2025-01-09", 0⟩,
                   ⟨5, 1, "2025-01-10", 0⟩]
    marks := [] }

/-- C7: for every student, the summary's `total` is the number of the
student's attendance records, `presentCount` the number with
`present = 1`, `absentCount` the number with `present = 0`, and
`percentage` is `presentCount/total*100` rounded to one decimal
(half-to-even, as Python `round`), or 0 when `total = 0`; in particular
with 3 present and 2 absent records it is `{5, 3, 2, 60.0}`. -/
theorem attendance_summary_spec (db : DB) (sid : Nat) :
    ((attendance_summary db sid).total
        = (db.attendance.filter (fun r => r.student_id == sid)).length ∧
     (attendance_summary db sid).presentCount
        = (db.attendance.filter (fun r => r.student_id == sid)).countP
            (fun a => a.present == 1) ∧
     (attendance_summary db sid).absentCount
        = (db.attendance.filter (fun r => r.student_id == sid)).countP
            (fun a => a.present == 0) ∧
     (attendance_summary db sid).percentage
        = (if 0 < (db.attendance.filter (fun r => r.student_id == sid)).length then
            pyRound1 (((db.attendance.filter (fun r => r.student_id == sid)).countP
                (fun a => a.present == 1) : ℚ)
              / ((db.attendance.filter (fun r => r.student_id == sid)).length : ℚ) * 100)
          else 0)) ∧
    attendance_summary dbC7 1 = ⟨5, 3, 2, 60⟩ := by
  refine ⟨attendance_summary_eq db sid, ?_⟩
  rcases attendance_summary_eq dbC7 1 with ⟨ht, hp, ha, hq⟩
  have e1 : (dbC7.attendance.filter (fun r => r.student_id == 1)).length = 5 := by decide
  have e2 : (dbC7.attendance.filter (fun r => r.student_id == 1)).countP
      (fun a => a.present == 1) = 3 := by decide
  have e3 : (dbC7.attendance.filter (fun r => r.student_id == 1)).countP
      (fun a => a.present == 0) = 2 := by decide
  rw [e1] at ht
  rw [e2] at hp
  rw [e3] at ha
  rw [e1, e2] at hq
  have hq60 : (attendance_summary dbC7 1).percentage = 60 := by
    rw [hq]
    norm_num
    simp only [pyRound1, roundHalfEven]
    norm_num
  have heta : attendance_summary dbC7 1 =
      ⟨(attendance_summary dbC7 1).total, (attendance_summary dbC7 1).presentCount,
       (attendance_summary dbC7 1).absentCount, (attendance_summary dbC7 1).percentage⟩ := rfl
  rw [heta, ht, hp, ha, hq60]

/-! ### C6: top performers -/

theorem perfRow_some {db : DB} {user_id : Nat} {s : Student} {r : PerfRow}
    (h : perfRow db user_id s = some r) :
    s.user_id = user_id ∧ r.name = s.name ∧
    db.marks.filter (fun m => m.student_id == s.id) ≠ [] ∧
    r.avg_marks = (((db.marks.filter (fun m => m.student_id == s.id)).map
        (fun m => m.marks)).sum : ℚ)
      / ((db.marks.filter (fun m => m.student_id == s.id)).length : ℚ) ∧
    ∃ c ∈ db.courses, c.id = s.course_id ∧ r.course_name = c.name := by
  unfold perfRow at h
  split at h
  · rename_i huid
    split at h
    · rename_i c hc
      split at h
      · cases h
      · rename_i hms
        injection h with h
        subst h
        refine ⟨by simpa using huid, rfl, ?_, rfl,
          c, List.mem_of_find?_eq_some hc, ?_, rfl⟩
        · simpa [List.isEmpty_iff] using hms
        · have := List.find?_some hc
          simpa using this
    · cases h
  · cases h

/-- C6: for every account and every row limit, the top-performers query
returns at most `limit` rows, ordered by average marks descending, and
every returned row comes from a student of the account with at least one
mark entry (students with zero mark entries are excluded), carries that
student's name and course name, and its average is the mean of the
student's marks.  (`analytics_page` instantiates `limit = 10`.) -/
theorem top_performers_spec (db : DB) (user_id limit : Nat) :
    (top_performers db user_id limit).length ≤ limit ∧
    (top_performers db user_id limit).Pairwise (fun a b => b.avg_marks ≤ a.avg_marks) ∧
    ∀ r ∈ top_performers db user_id limit, ∃ s ∈ db.students,
      s.user_id = user_id ∧ r.name = s.name ∧
      db.marks.filter (fun m => m.student_id == s.id) ≠ [] ∧
      r.avg_marks = (((db.marks.filter (fun m => m.student_id == s.id)).map
          (fun m => m.marks)).sum : ℚ)
        / ((db.marks.filter (fun m => m.student_id == s.id)).length : ℚ) ∧
      ∃ c ∈ db.courses, c.id = s.course_id ∧ r.course_name = c.name := by
  unfold top_performers
  refine ⟨?_, ?_, ?_⟩
  · rw [List.length_take]
    exact min_le_left _ _
  · refine List.Pairwise.sublist (List.take_sublist _ _) ?_
    apply pairwise_sortBy
    · intro a b hab
      exact of_decide_eq_true hab
    · intro a b hab
      exact le_of_not_le (of_decide_eq_false hab)
    · intro a b c h1 h2
      exact h2.trans h1
  · intro r hr
    have hr' : r ∈ sortBy (fun a b => decide (b.avg_marks ≤ a.avg_marks))
        (db.students.filterMap (perfRow db user_id)) :=
      (List.take_sublist _ _).subset hr
    rw [mem_sortBy] at hr'
    rcases List.mem_filterMap.mp hr' with ⟨s, hs, hps⟩
    rcases perfRow_some hps with ⟨h1, h2, h3, h4, h5⟩
    exact ⟨s, hs, h1, h2, h3, h4, h5⟩

end StudentManager
